import Mathlib

/-!
Verification development for the persona-driven PDF section ranking system
(Challenge 1b solution).  Text is modelled as lists of characters; Python
floats are modelled as exact rationals; the small regular expressions used
by the heuristics are modelled by a fuel-bounded backtracking matcher over
a token representation faithful to the patterns in the source.
-/

namespace PDFA

attribute [local semireducible] Rat.mul Rat.add Rat.inv Rat.sub

/-- Text is a list of characters (one Python `str`). -/
abbrev Str := List Char

/-- Conversion from a Lean string literal to the text model. -/
def chars (s : String) : Str := s.data

/-- Python whitespace class, as used by str.strip, str.split and regex s-class. -/
def pyWs (c : Char) : Bool :=
  c == ' ' || c == '\t' || c == '\n' || c == '\r' || c == '\x0b' || c == '\x0c'

/-- Model of Python str.strip(): drop whitespace from both ends. -/
def stripL (s : Str) : Str :=
  ((s.dropWhile pyWs).reverse.dropWhile pyWs).reverse

/-- Model of Python str.lower() (ASCII). -/
def toLowerS (s : Str) : Str := s.map Char.toLower

/-- Model of Python substring containment (the in operator on strings). -/
def isSubstr (needle hay : Str) : Bool :=
  match hay with
  | [] => needle.isEmpty
  | _ :: t => needle.isPrefixOf hay || isSubstr needle t

/-- Model of Python str.split(sep) for a one-character separator (keeps empties). -/
def splitOnCh (sep : Char) : Str → List Str
  | [] => [[]]
  | c :: rest =>
    if c == sep then [] :: splitOnCh sep rest
    else
      match splitOnCh sep rest with
      | r :: rs => (c :: r) :: rs
      | [] => [[c]]

/-- Maximal runs of characters satisfying p (used for str.split() and findall). -/
def runsOfAux (p : Char → Bool) (cur : Str) : Str → List Str
  | [] => if cur.isEmpty then [] else [cur.reverse]
  | c :: rest =>
    if p c then runsOfAux p (c :: cur) rest
    else if cur.isEmpty then runsOfAux p [] rest
    else cur.reverse :: runsOfAux p [] rest

/-- Maximal runs of characters satisfying p. -/
def runsOf (p : Char → Bool) (s : Str) : List Str := runsOfAux p [] s

/-- Model of Python str.split() with no argument: words separated by whitespace runs. -/
def pySplit (s : Str) : List Str := runsOf (fun c => !pyWs c) s

/-- Python regex word character (ASCII part of the w-class). -/
def isWordChar (c : Char) : Bool := c.isAlphanum || c == '_'

/-- Model of re.findall over word runs (the b w b pattern). -/
def findAllWords (s : Str) : List Str := runsOf isWordChar s

/-- Model of ' '.join(list). -/
def joinSp (l : List Str) : Str := List.intercalate [' '] l

/-- Worker for str.split(sep) with a multi-character separator: leftmost
non-overlapping occurrences, keeping empty pieces.  Fuel-bounded so that it
reduces in the kernel; each step consumes at least one character. -/
def splitOnSubGo (sep : Str) : Nat → Str → Str → List Str
  | 0, acc, rest => [acc.reverse ++ rest]
  | _ + 1, acc, [] => [acc.reverse]
  | fuel + 1, acc, c :: cs =>
    if sep.isPrefixOf (c :: cs) && !sep.isEmpty then
      acc.reverse :: splitOnSubGo sep fuel [] ((c :: cs).drop sep.length)
    else splitOnSubGo sep fuel (c :: acc) cs

/-- Model of Python str.split(sep) for a non-empty separator string. -/
def splitOnSub (sep : Str) (s : Str) : List Str :=
  splitOnSubGo sep (s.length + 1) [] s

/-- Model of re.sub collapsing whitespace runs to single spaces (flag: inside a run). -/
def wsCollapseAux : Bool → Str → Str
  | _, [] => []
  | inWs, c :: rest =>
    if pyWs c then
      if inWs then wsCollapseAux true rest else ' ' :: wsCollapseAux true rest
    else c :: wsCollapseAux false rest

/-- Model of re.sub replacing each whitespace run by a single space. -/
def wsCollapse (s : Str) : Str := wsCollapseAux false s

/-- Model of Python str.isupper(): at least one cased character and no lowercase one. -/
def pyIsUpper (s : Str) : Bool :=
  s.any Char.isAlpha && s.all (fun c => !c.isAlpha || c.isUpper)

/-- Helper for str.istitle(): tracks whether the previous character was cased
and whether a cased character has been seen. -/
def pyIsTitleAux : Bool → Bool → Str → Bool
  | _, seen, [] => seen
  | prevCased, seen, c :: rest =>
    if c.isUpper then !prevCased && pyIsTitleAux true true rest
    else if c.isLower then prevCased && pyIsTitleAux true true rest
    else pyIsTitleAux false seen rest

/-- Model of Python str.istitle() (ASCII). -/
def pyIsTitle (s : Str) : Bool := pyIsTitleAux false false s

/-- Model of str.endswith for a single final period. -/
def endsWithDot (s : Str) : Bool := s.getLast? == some '.'

/-- Model of str.count for a single character. -/
def countChar (c : Char) (s : Str) : Nat := s.count c

/-- Numeric value of a digit string (int() on a regex digit group). -/
def natOfDigits (s : Str) : Nat :=
  s.foldl (fun acc c => acc * 10 + (c.toNat - 48)) 0

/-! Regex engine.  The handful of patterns in the source are sequences of
character classes with repetition bounds, literal characters and optional
literal characters; a fuel-bounded backtracking matcher decides whether the
pattern matches a prefix of the text (re.match) or the whole text (anchored). -/

/-- One token of a regex pattern: a literal, an optional literal, or a
character class with a repetition range (upper bound none means unbounded). -/
inductive Tok where
  | lit (c : Char)
  | opt (c : Char)
  | cls (p : Char → Bool) (lo : Nat) (hi : Option Nat)

/-- Backtracking matcher: does the token list match the text (consuming a
prefix, or all of it when anchored)?  Structurally recursive on fuel. -/
def matchToksF : Nat → List Tok → Str → Bool → Bool
  | 0, _, _, _ => false
  | _ + 1, [], s, anch => !anch || s.isEmpty
  | fuel + 1, Tok.lit c :: ts, s, anch =>
    (match s with
     | d :: s2 => c == d && matchToksF fuel ts s2 anch
     | [] => false)
  | fuel + 1, Tok.opt c :: ts, s, anch =>
    matchToksF fuel ts s anch ||
    (match s with
     | d :: s2 => c == d && matchToksF fuel ts s2 anch
     | [] => false)
  | fuel + 1, Tok.cls p 0 hi :: ts, s, anch =>
    matchToksF fuel ts s anch ||
    (match hi, s with
     | some 0, _ => false
     | _, [] => false
     | _, c :: s2 => p c && matchToksF fuel (Tok.cls p 0 (hi.map (· - 1)) :: ts) s2 anch)
  | fuel + 1, Tok.cls p (lo + 1) hi :: ts, s, anch =>
    (match s with
     | c :: s2 => p c && matchToksF fuel (Tok.cls p lo (hi.map (· - 1)) :: ts) s2 anch
     | [] => false)

/-- Run the matcher with enough fuel for any backtracking path. -/
def reMatch (ts : List Tok) (anch : Bool) (s : Str) : Bool :=
  matchToksF (2 * ts.length + s.length + 1) ts s anch

/-- Uppercase-or-whitespace class. -/
def isUpperWs (c : Char) : Bool := c.isUpper || pyWs c

/-- Lowercase-or-whitespace class. -/
def isLowerWs (c : Char) : Bool := c.isLower || pyWs c

/-- Letter-or-whitespace class. -/
def isAlphaWs (c : Char) : Bool := c.isAlpha || pyWs c

/-! Data model: Section, Subsection, PersonaProfile, and page content as
delivered by the PDF-extraction collaborator. -/

/-- One section record produced by the SectionExtractor.  The relevance
score starts at 0 and is filled in by the RelevanceRanker. -/
structure Section where
  document : Str
  title : Str
  content : Str
  page_number : Nat
  type : Str
  relevance_score : ℚ := 0
  deriving DecidableEq, Repr

/-- One subsection record produced by extract_subsections. -/
structure Subsection where
  document : Str
  content : Str
  page_number : Nat
  relevance_score : ℚ
  subsection_index : Nat
  deriving DecidableEq, Repr

/-- A detected header-line candidate on a page (only the title is consumed
by the SectionExtractor). -/
structure PageSection where
  title : Str
  deriving DecidableEq, Repr

/-- One page of extracted document content. -/
structure Page where
  page_number : Nat
  text : Str
  sections : List PageSection
  deriving DecidableEq, Repr

/-- Document content as produced by the PDF-extraction collaborator. -/
structure DocContent where
  pages : List Page
  deriving DecidableEq, Repr

/-- Requirements extracted from the job task by the PersonaAnalyzer. -/
structure Requirements where
  dietary : List Str
  size : Option Nat
  duration : Option Str
  special_needs : List Str
  deriving DecidableEq, Repr

/-- Content-type weights of a persona profile. -/
structure ContextWeights where
  instructional : ℚ
  descriptive : ℚ
  analytical : ℚ
  reference : ℚ
  deriving DecidableEq, Repr

/-- Persona profile created by create_persona_profile. -/
structure PersonaProfile where
  persona : Str
  persona_type : Str
  job_task : Str
  job_actions : List Str
  domain_keywords : List Str
  requirements : Requirements
  priority_areas : List Str
  context_weight : ContextWeights
  deriving DecidableEq, Repr

/-! SectionExtractor (section_extractor.py). -/

/-- Pattern family of the Segmenter's looks-like-header predicate, with the
anchoring of each pattern (whether it must match the whole line).  First:
title case; second: all caps; third: numbered; fourth: dash separated. -/
def segmenterPatterns : List (List Tok × Bool) :=
  [ ([Tok.cls Char.isUpper 1 (some 1), Tok.cls isLowerWs 1 none,
      Tok.opt ':', Tok.cls pyWs 0 none], true),
    ([Tok.cls isUpperWs 3 none, Tok.opt ':', Tok.cls pyWs 0 none], true),
    ([Tok.cls Char.isDigit 1 none, Tok.lit '.', Tok.cls pyWs 1 none,
      Tok.cls Char.isAlpha 1 (some 1)], false),
    ([Tok.cls isAlphaWs 1 none, Tok.lit ' ', Tok.lit '-', Tok.lit ' ',
      Tok.cls Char.isAlpha 1 (some 1)], false) ]

/-- Model of SectionExtractor looks-like-header: strip the line, reject
lengths outside 3..100, then accept exactly when one of the four patterns
matches. -/
def looks_like_header (line0 : Str) : Bool :=
  let line := stripL line0
  if line.length < 3 || 100 < line.length then false
  else segmenterPatterns.any fun pa => reMatch pa.1 pa.2 line

/-- Model of SectionExtractor is-valid-section: trimmed length at least 50,
raw length at most 2000, and the number of distinct words at least 0.3 of
the word count (0.3 modelled exactly as 3/10). -/
def is_valid_section (content : Str) : Bool :=
  if content.isEmpty || (stripL content).length < 50 then false
  else if 2000 < content.length then false
  else
    let words := pySplit content
    if 10 * words.dedup.length < 3 * words.length then false
    else true

/-- Content accumulation loop of extract-section-content: starting after the
header line, strip each line; stop when a line looks like a header and more
than 3 content lines are accumulated; append non-empty lines. -/
def contentLoop : List Str → List Str → List Str
  | [], acc => acc
  | l :: rest, acc =>
    let line := stripL l
    if looks_like_header line && decide (3 < acc.length) then acc
    else if !line.isEmpty then contentLoop rest (acc ++ [line])
    else contentLoop rest acc

/-- Model of extract-section-content: find the first line containing the
title (case-insensitively), then join the accumulated following lines with
spaces.  The page-number argument is unused, as in the source. -/
def extract_section_content (page_text : Str) (section_title : Str)
    (_page_number : Nat) : Str :=
  let lines := splitOnCh '\n' page_text
  match lines.findIdx? (fun line => isSubstr (toLowerS section_title) (toLowerS line)) with
  | none => []
  | some i => joinSp (contentLoop (lines.drop (i + 1)) [])

/-- Flush of an accumulated implicit-section group: emitted only when a
title is present and the joined content passes the validity check. -/
def implicitFlush (filename : Str) (page_number : Nat)
    (title : Option Str) (acc : List Str) : List Section :=
  match title with
  | none => []
  | some t =>
    if !acc.isEmpty && is_valid_section (joinSp acc) then
      [{ document := filename, title := t, content := joinSp acc,
         page_number := page_number, type := chars "implicit" }]
    else []

/-- First line of a paragraph, stripped (paragraph.split newline, index 0,
then strip). -/
def firstLineOf (p : Str) : Str := stripL (p.takeWhile (fun c => !(c == '\n')))

/-- Remainder of a paragraph after removing its first line prefix, as the
source computes it: the slice from the length of the stripped first line. -/
def paraRemainder (p : Str) (fl : Str) : List Str :=
  if fl.length < p.length then [stripL (p.drop fl.length)] else []

/-- Main loop of implicit-section extraction over the paragraphs of a page:
a header-like first line with a non-empty accumulator flushes the previous
group (when titled and valid) and starts a new group; otherwise the
paragraph is appended to the current group.  At the end the final group is
flushed under the same conditions. -/
def implicitLoop (filename : Str) (page_number : Nat) :
    List Str → Option Str → List Str → List Section
  | [], title, acc => implicitFlush filename page_number title acc
  | p :: ps, title, acc =>
    let fl := firstLineOf p
    if looks_like_header fl && !acc.isEmpty then
      implicitFlush filename page_number title acc ++
        implicitLoop filename page_number ps (some fl) (paraRemainder p fl)
    else implicitLoop filename page_number ps title (acc ++ [p])

/-- Paragraphs of a page: split on blank lines, strip, drop empties. -/
def paragraphsOf (page_text : Str) : List Str :=
  ((splitOnSub (chars "\n\n") page_text).map stripL).filter fun p => !p.isEmpty

/-- Model of extract-implicit-sections: split the page on blank lines into
stripped non-empty paragraphs and run the accumulation loop. -/
def extract_implicit_sections (page_text : Str) (page_number : Nat)
    (filename : Str) : List Section :=
  implicitLoop filename page_number (paragraphsOf page_text) none []

/-- Model of deduplicate-sections: keep the first section for each
whitespace-normalized lowercase content. -/
def normContent (s : Str) : Str := wsCollapse (stripL (toLowerS s))

/-- Deduplication loop carrying the set of already seen normalized contents. -/
def dedupGo : List Str → List Section → List Section
  | _, [] => []
  | seen, s :: rest =>
    let n := normContent s.content
    if seen.contains n then dedupGo seen rest
    else s :: dedupGo (n :: seen) rest

/-- Model of deduplicate-sections. -/
def deduplicate_sections (sections : List Section) : List Section :=
  dedupGo [] sections

/-- Informativeness keywords of the quality heuristic. -/
def infoWords : List Str :=
  [chars "how", chars "what", chars "where", chars "when", chars "why",
   chars "include", chars "contain"]

/-- Model of the quality-score closure inside rank-sections-by-quality. -/
def quality_score (s : Section) : ℚ :=
  let content := s.content
  let base : ℚ :=
    if 200 ≤ content.length ∧ content.length ≤ 1000 then 2
    else if 100 ≤ content.length ∧ content.length ≤ 1500 then 1
    else 0
  let structural :=
    if [chars ":", chars "1.", chars "•", chars "-"].any
        (fun pat => isSubstr pat content) then base + 1
    else base
  infoWords.foldl
    (fun acc w => if isSubstr w (toLowerS content) then acc + 1/2 else acc)
    structural

/-- Decidability of the descending-key comparisons used by the stable
sorts of the pipeline. -/
instance decRelKeyDesc {α : Type} (f : α → ℚ) :
    DecidableRel fun a b : α => f b ≤ f a :=
  fun a b => inferInstanceAs (Decidable (f b ≤ f a))

/-- The descending-key comparison is total. -/
instance isTotalKeyDesc {α : Type} (f : α → ℚ) :
    IsTotal α fun a b : α => f b ≤ f a :=
  ⟨fun a b => le_total (f b) (f a)⟩

/-- The descending-key comparison is transitive. -/
instance isTransKeyDesc {α : Type} (f : α → ℚ) :
    IsTrans α fun a b : α => f b ≤ f a :=
  ⟨fun _ _ _ hab hbc => le_trans hbc hab⟩

/-- Model of rank-sections-by-quality: stable descending sort by quality
(Python's stable sort with reverse, modelled by insertion sort on the
descending relation, which has the same stable result). -/
def rank_sections_by_quality (sections : List Section) : List Section :=
  List.insertionSort (fun a b => quality_score b ≤ quality_score a) sections

/-- Model of extract-sections: per page, explicit sections (content located
after the matched header, kept when valid) followed by implicit sections;
then deduplication and quality ranking. -/
def extract_sections (doc_content : DocContent) (filename : Str) :
    List Section :=
  let sections := (doc_content.pages.map fun page =>
    (page.sections.filterMap fun ps =>
      let c := extract_section_content page.text ps.title page.page_number
      if is_valid_section c then
        some { document := filename, title := ps.title, content := c,
               page_number := page.page_number, type := chars "explicit" }
      else none)
    ++ extract_implicit_sections page.text page.page_number filename).flatten
  rank_sections_by_quality (deduplicate_sections sections)

/-! Subsection splitting (split-into-subsections and its regex separators). -/

/-- Length of a numbered-list separator match at the head of the text, if
any: newline, optional whitespace, digits, a period, then whitespace. -/
def numSepLen (s : Str) : Option Nat :=
  match s with
  | [] => none
  | c :: r =>
    if c == '\n' then
      let w := r.takeWhile pyWs
      let r2 := r.drop w.length
      let d := r2.takeWhile Char.isDigit
      if d.isEmpty then none
      else
        match r2.drop d.length with
        | '.' :: r3 =>
          let w2 := r3.takeWhile pyWs
          if w2.isEmpty then none
          else some (1 + w.length + d.length + 1 + w2.length)
        | _ => none
    else none

/-- Length of a bullet separator match at the head of the text, if any:
newline, optional whitespace, a bullet character, then whitespace. -/
def bulletSepLen (s : Str) : Option Nat :=
  match s with
  | [] => none
  | c :: r =>
    if c == '\n' then
      let w := r.takeWhile pyWs
      match r.drop w.length with
      | b :: r3 =>
        if b == '•' || b == '·' || b == '-' then
          let w2 := r3.takeWhile pyWs
          if w2.isEmpty then none else some (1 + w.length + 1 + w2.length)
        else none
      | [] => none
    else none

/-- Length of a sentence separator match at the head of the text, if any:
one or more of period, exclamation or question mark, then whitespace. -/
def sentSepLen (s : Str) : Option Nat :=
  let p := s.takeWhile fun c => c == '.' || c == '!' || c == '?'
  if p.isEmpty then none
  else
    let w := (s.drop p.length).takeWhile pyWs
    if w.isEmpty then none else some (p.length + w.length)

/-- Worker for re.split against one of the separator matchers: split at
every leftmost non-overlapping match, keeping empty pieces. -/
def reSplitGo (sepLen : Str → Option Nat) : Nat → Str → Str → List Str
  | 0, acc, rest => [acc.reverse ++ rest]
  | _ + 1, acc, [] => [acc.reverse]
  | fuel + 1, acc, c :: cs =>
    match sepLen (c :: cs) with
    | some (n + 1) => acc.reverse :: reSplitGo sepLen fuel [] ((c :: cs).drop (n + 1))
    | _ => reSplitGo sepLen fuel (c :: acc) cs

/-- Model of re.split for one of the separator matchers. -/
def reSplit (sepLen : Str → Option Nat) (s : Str) : List Str :=
  reSplitGo sepLen (s.length + 1) [] s

/-- Model of re.search for one of the separator matchers: does the pattern
match at some position of the text? -/
def reContains (sepLen : Str → Option Nat) : Str → Bool
  | [] => (sepLen []).isSome
  | c :: cs => (sepLen (c :: cs)).isSome || reContains sepLen cs

/-- Strategy 4 of split-into-subsections plus the final fallback: bisect an
over-long body at the sentence boundary nearest after the midpoint, else
keep the whole body. -/
def splitFallback (content : Str) : List Str :=
  if 2000 < content.length then
    let mid := content.length / 2
    let stop := min content.length (mid + 100)
    match (List.range' mid (stop - mid)).find? (fun i =>
        let c := content.getD i ' '
        c == '.' || c == '!' || c == '?') with
    | some i => [stripL (content.take (i + 1)), stripL (content.drop (i + 1))]
    | none => [content]
  else [content]

/-- Sentence-grouping loop of strategy 3: accumulate sentences until the
joined chunk exceeds 200 characters, then start a new chunk; a non-empty
final chunk is appended. -/
def groupSentences : List Str → List Str → List Str
  | cur, [] => if cur.isEmpty then [] else [joinSp cur]
  | cur, s :: rest =>
    let cur2 := cur ++ [s]
    if 200 < (joinSp cur2).length then joinSp cur2 :: groupSentences [] rest
    else groupSentences cur2 rest

/-- Strategy 3 of split-into-subsections: sentence grouping when the body
splits into more than 10 sentences. -/
def splitStrategy3 (content : Str) : List Str :=
  let sentences := reSplit sentSepLen content
  if 10 < sentences.length then groupSentences [] sentences
  else splitFallback content

/-- Strategy 2 of split-into-subsections: bullet markers. -/
def splitStrategy2 (content : Str) : List Str :=
  if reContains bulletSepLen content then
    let subs := reSplit bulletSepLen content
    if 1 < subs.length then (subs.map stripL).filter (fun s => !s.isEmpty)
    else splitStrategy3 content
  else splitStrategy3 content

/-- Model of split-into-subsections: the four strategies tried in order. -/
def split_into_subsections (content : Str) : List Str :=
  if reContains numSepLen content then
    let subs := reSplit numSepLen content
    if 1 < subs.length then (subs.map stripL).filter (fun s => !s.isEmpty)
    else splitStrategy2 content
  else splitStrategy2 content

/-- Instructional cue words of the subsection scorer. -/
def instructionalCues : List Str :=
  [chars "instructions", chars "steps", chars "ingredients", chars "how to"]

/-- Descriptive cue words of the subsection scorer. -/
def descriptiveCues : List Str :=
  [chars "description", chars "features", chars "details", chars "includes"]

/-- Model of score-subsection-relevance.  The job-task argument is unused
in the source body as well. -/
def score_subsection_relevance (subsection : Str) (pc : PersonaProfile)
    (_job_task : Str) : ℚ :=
  let sl := toLowerS subsection
  let s1 : ℚ :=
    ((pc.domain_keywords.filter fun kw => isSubstr (toLowerS kw) sl).length : ℚ) * (1/10)
  let s2 : ℚ := ((pc.job_actions.filter fun a => isSubstr a sl).length : ℚ) * (15/100)
  let s3 : ℚ :=
    ((pc.requirements.dietary.filter fun d => isSubstr (toLowerS d) sl).length : ℚ) * (1/5)
  let s4 : ℚ :=
    ((pc.requirements.special_needs.filter fun sn => isSubstr (toLowerS sn) sl).length : ℚ)
      * (1/10)
  let s5 : ℚ := if instructionalCues.any fun w => isSubstr w sl then
      pc.context_weight.instructional else 0
  let s6 : ℚ := if descriptiveCues.any fun w => isSubstr w sl then
      pc.context_weight.descriptive else 0
  let s7 : ℚ := min ((subsection.length : ℚ) / 500) 1 * (1/10)
  s1 + s2 + s3 + s4 + s5 + s6 + s7

/-- Model of extract-subsections: split the parent body, keep candidates of
trimmed length at least 100, score them, stable-sort descending by score,
and take the top 3. -/
def extract_subsections (s : Section) (persona_context : PersonaProfile)
    (job_task : Str) : List Subsection :=
  let candidates := split_into_subsections s.content
  let scored := candidates.enum.filterMap fun is =>
    if 100 ≤ (stripL is.2).length then
      some { document := s.document, content := stripL is.2,
             page_number := s.page_number,
             relevance_score := score_subsection_relevance is.2 persona_context job_task,
             subsection_index := is.1 }
    else none
  (List.insertionSort
    (fun a b : Subsection => b.relevance_score ≤ a.relevance_score) scored).take 3

/-! DocumentProcessor (document_processor.py). -/

/-- Pattern family of the document processor's section-header detection.
First: title case; second: all caps; third: numbered; fourth: dash
separated; fifth: bold markdown. -/
def sectionPatterns : List (List Tok × Bool) :=
  [ ([Tok.cls Char.isUpper 1 (some 1), Tok.cls isAlphaWs 2 (some 50),
      Tok.opt ':', Tok.cls pyWs 0 none], true),
    ([Tok.cls isUpperWs 3 (some 50), Tok.opt ':', Tok.cls pyWs 0 none], true),
    ([Tok.cls Char.isDigit 1 none, Tok.lit '.', Tok.cls pyWs 1 none,
      Tok.cls isAlphaWs 3 (some 50), Tok.opt ':', Tok.cls pyWs 0 none], true),
    ([Tok.cls isAlphaWs 3 (some 50), Tok.cls pyWs 0 none, Tok.lit '-',
      Tok.cls pyWs 0 none], false),
    ([Tok.lit '*', Tok.lit '*', Tok.cls isAlphaWs 3 (some 50),
      Tok.lit '*', Tok.lit '*'], false) ]

/-- Model of the document processor's is-section-header: strip, length
check, pattern family, then the full-caps and title-case heuristics. -/
def is_section_header (text0 : Str) : Bool :=
  let text := stripL text0
  if text.length < 3 || 100 < text.length then false
  else if sectionPatterns.any (fun pa => reMatch pa.1 pa.2 text) then true
  else if pyIsUpper text && decide ((pySplit text).length ≤ 8) &&
      !endsWithDot text && !(text.contains ':') then true
  else if pyIsTitle text && decide ((pySplit text).length ≤ 10) &&
      !endsWithDot text && decide (countChar ':' text ≤ 1) then true
  else false

/-! PersonaAnalyzer (persona_analyzer.py). -/

/-- Persona keyword table, in source (insertion) order. -/
def personaKeywordTable : List (Str × List Str) :=
  [ (chars "researcher",
     [chars "research", chars "methodology", chars "analysis", chars "study",
      chars "findings", chars "literature", chars "academic",
      chars "publication", chars "data", chars "experiment"]),
    (chars "student",
     [chars "learn", chars "study", chars "exam", chars "concept",
      chars "understanding", chars "education", chars "knowledge",
      chars "practice", chars "tutorial", chars "explanation"]),
    (chars "analyst",
     [chars "analysis", chars "trend", chars "metrics", chars "performance",
      chars "evaluation", chars "comparison", chars "insight", chars "report",
      chars "assessment", chars "review"]),
    (chars "manager",
     [chars "strategy", chars "planning", chars "coordination", chars "team",
      chars "leadership", chars "decision", chars "execution",
      chars "oversight", chars "process", chars "management"]),
    (chars "planner",
     [chars "plan", chars "schedule", chars "organize", chars "coordinate",
      chars "timeline", chars "logistics", chars "arrangement",
      chars "preparation", chars "itinerary", chars "booking"]),
    (chars "contractor",
     [chars "service", chars "delivery", chars "quality", chars "specification",
      chars "requirement", chars "standard", chars "compliance",
      chars "execution", chars "performance", chars "contract"]),
    (chars "professional",
     [chars "expertise", chars "skill", chars "experience", chars "competency",
      chars "qualification", chars "practice", chars "standard",
      chars "protocol", chars "procedure", chars "guideline"]) ]

/-- Job action table, in source (insertion) order. -/
def jobActionTable : List (Str × List Str) :=
  [ (chars "create",
     [chars "design", chars "build", chars "develop", chars "make",
      chars "construct", chars "generate", chars "produce", chars "establish"]),
    (chars "analyze",
     [chars "examine", chars "evaluate", chars "assess", chars "review",
      chars "investigate", chars "study", chars "research", chars "compare"]),
    (chars "plan",
     [chars "organize", chars "schedule", chars "prepare", chars "arrange",
      chars "coordinate", chars "design", chars "structure", chars "outline"]),
    (chars "manage",
     [chars "oversee", chars "supervise", chars "control", chars "direct",
      chars "handle", chars "administer", chars "govern", chars "lead"]),
    (chars "prepare",
     [chars "ready", chars "setup", chars "arrange", chars "organize",
      chars "compile", chars "assemble", chars "gather", chars "collect"]) ]

/-- Model of identify-persona-type: first table entry whose name or first
three keywords occur in the lowercased persona text, then the fallback
chain, defaulting to professional. -/
def identify_persona_type (persona : Str) : Str :=
  match personaKeywordTable.find? (fun e =>
      isSubstr e.1 persona || (e.2.take 3).any fun kw => isSubstr kw persona) with
  | some e => e.1
  | none =>
    if [chars "hr", chars "human", chars "resource"].any
        (fun w => isSubstr w persona) then chars "professional"
    else if [chars "food", chars "chef", chars "cook", chars "menu"].any
        (fun w => isSubstr w persona) then chars "contractor"
    else if [chars "travel", chars "trip", chars "tour"].any
        (fun w => isSubstr w persona) then chars "planner"
    else chars "professional"

/-- Model of extract-job-actions: action categories whose name or synonyms
occur in the task, plus forced categories for food, form and travel hints;
the set conversion is modelled by dedup, with analyze as the default. -/
def extract_job_actions (task : Str) : List Str :=
  let base := jobActionTable.filterMap fun e =>
    if isSubstr e.1 task || e.2.any (fun w => isSubstr w task) then some e.1 else none
  let a1 := if isSubstr (chars "menu") task || isSubstr (chars "food") task ||
      isSubstr (chars "recipe") task then base ++ [chars "prepare"] else base
  let a2 := if isSubstr (chars "form") task || isSubstr (chars "document") task then
      a1 ++ [chars "create"] else a1
  let a3 := if isSubstr (chars "trip") task || isSubstr (chars "travel") task ||
      isSubstr (chars "itinerary") task then a2 ++ [chars "plan"] else a2
  if a3.isEmpty then [chars "analyze"] else a3.dedup

/-- Model of get-domain-keywords: the persona type's base keywords plus
task-triggered keyword groups. -/
def get_domain_keywords (persona_type : Str) (task : Str) : List Str :=
  let keywords :=
    ((personaKeywordTable.find? fun e => e.1 == persona_type).map Prod.snd).getD []
  let t1 := if [chars "menu", chars "food", chars "recipe", chars "vegetarian",
      chars "buffet"].any (fun w => isSubstr w task) then
      [chars "recipe", chars "ingredient", chars "cooking", chars "nutrition",
       chars "dietary"] else []
  let t2 := if [chars "travel", chars "trip", chars "vacation",
      chars "tourist"].any (fun w => isSubstr w task) then
      [chars "destination", chars "activity", chars "accommodation",
       chars "transportation", chars "attraction"] else []
  let t3 := if [chars "business", chars "corporate", chars "company",
      chars "professional"].any (fun w => isSubstr w task) then
      [chars "business", chars "corporate", chars "professional",
       chars "service", chars "quality"] else []
  let t4 := if [chars "form", chars "hr", chars "employee",
      chars "onboarding"].any (fun w => isSubstr w task) then
      [chars "form", chars "employee", chars "process", chars "compliance",
       chars "documentation"] else []
  keywords ++ t1 ++ t2 ++ t3 ++ t4

/-- Dietary vocabulary of extract-requirements. -/
def dietaryTerms : List Str :=
  [chars "vegetarian", chars "vegan", chars "gluten-free", chars "halal",
   chars "kosher", chars "dairy-free"]

/-- Person nouns of the group-size pattern, in alternation order. -/
def sizeUnits : List Str :=
  [chars "people", chars "person", chars "friend", chars "guest",
   chars "individual"]

/-- Time-unit nouns of the duration pattern, in alternation order. -/
def durationUnits : List Str :=
  [chars "day", chars "week", chars "hour", chars "month"]

/-- Match of the digits-whitespace-unit pattern at the head of the text:
returns the digit group and the matched unit. -/
def tryNumUnit (units : List Str) (s : Str) : Option (Str × Str) :=
  let ds := s.takeWhile Char.isDigit
  if ds.isEmpty then none
  else
    let r := (s.drop ds.length).dropWhile pyWs
    match units.find? (fun u => u.isPrefixOf r) with
    | some u => some (ds, u)
    | none => none

/-- Model of re.search for the digits-whitespace-unit pattern: leftmost
match over all start positions. -/
def searchNumUnit (units : List Str) : Str → Option (Str × Str)
  | [] => none
  | c :: cs =>
    match tryNumUnit units (c :: cs) with
    | some r => some r
    | none => searchNumUnit units cs

/-- Model of extract-requirements over the lowercased task. -/
def extract_requirements (task : Str) : Requirements :=
  { dietary := dietaryTerms.filter fun t => isSubstr t task
    size := (searchNumUnit sizeUnits task).map fun r => natOfDigits r.1
    duration := (searchNumUnit durationUnits task).map fun r =>
      r.1 ++ [' '] ++ r.2 ++ ['s']
    special_needs :=
      (if isSubstr (chars "corporate") task then [chars "professional"] else []) ++
      (if isSubstr (chars "buffet") task then [chars "buffet-style"] else []) ++
      (if isSubstr (chars "college") task then [chars "budget-friendly"] else []) }

/-- Priority map of identify-priority-areas. -/
def priorityMap : List (Str × List Str) :=
  [ (chars "researcher",
     [chars "methodology", chars "analysis", chars "findings", chars "literature"]),
    (chars "student",
     [chars "concepts", chars "examples", chars "explanations", chars "practice"]),
    (chars "planner",
     [chars "logistics", chars "schedule", chars "activities", chars "recommendations"]),
    (chars "contractor",
     [chars "specifications", chars "quality", chars "delivery", chars "requirements"]),
    (chars "professional",
     [chars "process", chars "compliance", chars "standards", chars "best-practices"]) ]

/-- Action-specific priorities of identify-priority-areas. -/
def actionPriorities : List (Str × List Str) :=
  [ (chars "create",
     [chars "instructions", chars "steps", chars "tools", chars "templates"]),
    (chars "plan",
     [chars "options", chars "schedule", chars "logistics", chars "recommendations"]),
    (chars "analyze",
     [chars "data", chars "comparison", chars "insights", chars "trends"]),
    (chars "prepare",
     [chars "ingredients", chars "materials", chars "steps", chars "requirements"]) ]

/-- Model of identify-priority-areas (list-set conversion as dedup). -/
def identify_priority_areas (persona_type : Str) (job_actions : List Str) :
    List Str :=
  let base := ((priorityMap.find? fun e => e.1 == persona_type).map Prod.snd).getD
    [chars "information", chars "details"]
  (job_actions.foldl (fun acc a =>
    acc ++ ((actionPriorities.find? fun e => e.1 == a).map Prod.snd).getD []) base).dedup

/-- Model of calculate-context-weights: baseline weights, additive persona
and action adjustments (the persona adjustment is an elif chain in the
source), then normalization by the total. -/
def calculate_context_weights (persona_type : Str) (job_actions : List Str) :
    ContextWeights :=
  let cSR := persona_type = chars "student" ∨ persona_type = chars "researcher"
  let cPC := persona_type = chars "planner" ∨ persona_type = chars "contractor"
  let i1 : ℚ := if cSR then 3/10 else if cPC then 3/10 + 1/5 else 3/10
  let d1 : ℚ := if cSR then 3/10 else if cPC then 3/10 + 1/10 else 3/10
  let a1 : ℚ := if cSR then 1/5 + 1/5 else 1/5
  let r1 : ℚ := if cSR then 1/5 + 1/10 else 1/5
  let i2 := if job_actions.contains (chars "create") ||
      job_actions.contains (chars "prepare") then i1 + 1/5 else i1
  let a2 := if job_actions.contains (chars "analyze") then a1 + 1/5 else a1
  let d2 := if job_actions.contains (chars "plan") then d1 + 1/5 else d1
  let total := i2 + d2 + a2 + r1
  { instructional := i2 / total, descriptive := d2 / total,
    analytical := a2 / total, reference := r1 / total }

/-- Model of create-persona-profile. -/
def create_persona_profile (persona : Str) (job_task : Str) : PersonaProfile :=
  let persona_lower := toLowerS persona
  let task_lower := toLowerS job_task
  let ptype := identify_persona_type persona_lower
  let actions := extract_job_actions task_lower
  { persona := persona, persona_type := ptype, job_task := job_task,
    job_actions := actions,
    domain_keywords := get_domain_keywords ptype task_lower,
    requirements := extract_requirements task_lower,
    priority_areas := identify_priority_areas ptype actions,
    context_weight := calculate_context_weights ptype actions }

/-! RelevanceRanker (relevance_ranker.py).  The sentence-transformer and
TF-IDF collaborators are parameters of rank-sections; the keyword and
structural signals are modelled from the source. -/

/-- Model of create-query-context. -/
def create_query_context (pc : PersonaProfile) (job_task : Str) : Str :=
  let parts := [pc.persona, job_task, joinSp pc.domain_keywords,
    joinSp pc.job_actions, joinSp pc.priority_areas]
    ++ pc.requirements.dietary ++ pc.requirements.special_needs
  joinSp (parts.filter fun p => !p.isEmpty)

/-- Lowercased keyword vocabulary collected by the keyword signal (the
Python set is modelled by dedup). -/
def keywordVocab (pc : PersonaProfile) : List Str :=
  ((pc.domain_keywords ++ pc.job_actions ++ pc.priority_areas
    ++ pc.requirements.dietary ++ pc.requirements.special_needs).map toLowerS).dedup

/-- Model of calculate-keyword-similarity: blend of Jaccard similarity of
the keyword set against the section word set and a capped keyword density. -/
def calculate_keyword_similarity (sections : List Section)
    (pc : PersonaProfile) : List ℚ :=
  let keywords := keywordVocab pc
  sections.map fun sec =>
    let st := toLowerS sec.content
    let sw := (findAllWords st).dedup
    let inter := (keywords.filter fun kw => sw.contains kw).length
    let uni := keywords.length + (sw.filter fun w => !keywords.contains w).length
    let jaccard : ℚ := if uni ≠ 0 then (inter : ℚ) / (uni : ℚ) else 0
    let kwCount := (keywords.filter fun kw => isSubstr kw st).length
    let nWords := (pySplit st).length
    let density : ℚ := if nWords ≠ 0 then (kwCount : ℚ) / (nWords : ℚ) else 0
    jaccard * (7/10) + min (density * 10) 1 * (3/10)

/-- Information indicators of the structural signal. -/
def infoIndicators : List Str :=
  [chars "ingredients", chars "steps", chars "instructions", chars "how to",
   chars "recipe", chars "procedure", chars "method", chars "technique",
   chars "tip", chars "recommendation"]

/-- Model of re.search for a digit run followed by a period. -/
def hasNumDot : Str → Bool
  | c :: d :: rest => (c.isDigit && d == '.') || hasNumDot (d :: rest)
  | _ => false

/-- Model of calculate-structural-scores, capped at 1. -/
def calculate_structural_scores (sections : List Section)
    (pc : PersonaProfile) : List ℚ :=
  sections.map fun sec =>
    let content := sec.content
    let n := content.length
    let s1 : ℚ :=
      if 200 ≤ n ∧ n ≤ 1000 then 3/10
      else if 100 ≤ n ∧ n ≤ 1500 then 1/5
      else if 50 < n then 1/10
      else 0
    let s2 := if content.contains ':' then s1 + 1/5 else s1
    let s3 := if hasNumDot content then s2 + 1/5 else s2
    let s4 := if [chars "â€¢", chars "-", chars "*"].any
        (fun b => isSubstr b content) then s3 + 3/20 else s3
    let infoCount :=
      (infoIndicators.filter fun w => isSubstr w (toLowerS content)).length
    let s5 := s4 + min ((infoCount : ℚ) * (1/20)) (3/10)
    let s6 := if pc.persona_type == chars "contractor" &&
        ([chars "recipe", chars "ingredients", chars "cooking"].any
          fun w => isSubstr w (toLowerS content)) then s5 + 1/5 else s5
    let s7 := if pc.persona_type == chars "planner" &&
        ([chars "activity", chars "visit", chars "explore", chars "enjoy"].any
          fun w => isSubstr w (toLowerS content)) then s6 + 1/5 else s6
    let s8 := if pc.persona_type == chars "professional" &&
        ([chars "form", chars "process", chars "step", chars "create"].any
          fun w => isSubstr w (toLowerS content)) then s7 + 1/5 else s7
    min s8 1

/-- Persona-type specific multiplicative boosting block of
apply-persona-boosting (content is the lowercased section body). -/
def personaBoost (pc : PersonaProfile) (content : Str) (x : ℚ) : ℚ :=
  if pc.persona_type == chars "contractor" then
    let x1 := if [chars "recipe", chars "ingredients", chars "cooking",
        chars "preparation"].any (fun w => isSubstr w content) then
        x * (13/10) else x
    pc.requirements.dietary.foldl (fun acc req =>
      if isSubstr (toLowerS req) content then acc * (6/5) else acc) x1
  else if pc.persona_type == chars "planner" then
    let x1 := if [chars "activity", chars "attraction", chars "visit",
        chars "explore", chars "destination"].any
        (fun w => isSubstr w content) then x * (13/10) else x
    if [chars "group", chars "friends", chars "together", chars "party"].any
        (fun w => isSubstr w content) then x1 * (6/5) else x1
  else if pc.persona_type == chars "professional" then
    let x1 := if [chars "form", chars "process", chars "procedure",
        chars "workflow", chars "step"].any (fun w => isSubstr w content) then
        x * (13/10) else x
    if [chars "compliance", chars "professional", chars "business",
        chars "corporate"].any (fun w => isSubstr w content) then
        x1 * (6/5) else x1
  else x

/-- Job-term multiplicative boosting block of apply-persona-boosting. -/
def jobBoost (job_lower content : Str) (x : ℚ) : ℚ :=
  let x1 := if isSubstr (chars "buffet") job_lower &&
      isSubstr (chars "buffet") content then x * (13/10) else x
  let x2 := if isSubstr (chars "vegetarian") job_lower &&
      isSubstr (chars "vegetarian") content then x1 * (13/10) else x1
  let x3 := if isSubstr (chars "college") job_lower &&
      ([chars "budget", chars "affordable", chars "cheap", chars "student"].any
        fun w => isSubstr w content) then x2 * (6/5) else x2
  if isSubstr (chars "corporate") job_lower &&
      ([chars "professional", chars "business", chars "corporate"].any
        fun w => isSubstr w content) then x3 * (6/5) else x3

/-- Title-keyword overlap boosting block of apply-persona-boosting. -/
def titleBoost (sec : Section) (pc : PersonaProfile) (x : ℚ) : ℚ :=
  let title := toLowerS sec.title
  let overlap := ((pySplit title).dedup.filter fun w =>
    (pc.domain_keywords.map toLowerS).contains w).length
  if 0 < overlap then x * (1 + (overlap : ℚ) * (1/10)) else x

/-- Model of apply-persona-boosting: the three boosting blocks applied in
source order, capped at 2. -/
def apply_persona_boosting (sec : Section) (base_score : ℚ)
    (pc : PersonaProfile) (job_task : Str) : ℚ :=
  let content := toLowerS sec.content
  min (titleBoost sec pc
        (jobBoost (toLowerS job_task) content (personaBoost pc content base_score))) 2

/-- Model of rank-sections, parameterized by the semantic and TF-IDF
similarity collaborators: empty input short-circuits to the empty list;
otherwise the four signals are fused with fixed weights, boosted, and the
sections are stable-sorted descending by the boosted score. -/
def rank_sections (semanticSim tfidfSim : List Section → Str → List ℚ)
    (sections : List Section) (pc : PersonaProfile) (job_task : Str) :
    List Section :=
  if sections.isEmpty then []
  else
    let query := create_query_context pc job_task
    let semantic := semanticSim sections query
    let tfidf := tfidfSim sections query
    let keyword := calculate_keyword_similarity sections pc
    let structural := calculate_structural_scores sections pc
    let scored := sections.enum.map fun is =>
      let combined := semantic.getD is.1 0 * (2/5) + tfidf.getD is.1 0 * (3/10)
        + keyword.getD is.1 0 * (1/5) + structural.getD is.1 0 * (1/10)
      { is.2 with relevance_score := apply_persona_boosting is.2 combined pc job_task }
    List.insertionSort
      (fun a b : Section => b.relevance_score ≤ a.relevance_score) scored

/-- Concrete persona text of the food-contractor scenario. -/
def foodPersona : Str := chars "Food Contractor"

/-- Concrete job text of the food-contractor scenario. -/
def buffetJob : Str :=
  chars "Prepare a vegetarian buffet menu for a corporate event of 50 people"

/-- A minimal persona profile with empty keyword sets, used to evaluate the
ranking pipeline at concrete inputs. -/
def emptyProfile : PersonaProfile :=
  { persona := [], persona_type := [], job_task := [], job_actions := [],
    domain_keywords := [],
    requirements := { dietary := [], size := none, duration := none,
                      special_needs := [] },
    priority_areas := [],
    context_weight := { instructional := 0, descriptive := 0, analytical := 0,
                        reference := 0 } }

/-! Helper lemmas. -/

/-- Stripping never lengthens a text. -/
theorem length_stripL_le (s : Str) : (stripL s).length ≤ s.length := by
  unfold stripL
  calc ((s.dropWhile pyWs).reverse.dropWhile pyWs).reverse.length
      = ((s.dropWhile pyWs).reverse.dropWhile pyWs).length :=
        List.length_reverse _
    _ ≤ (s.dropWhile pyWs).reverse.length :=
        (List.dropWhile_sublist _).length_le
    _ = (s.dropWhile pyWs).length := List.length_reverse _
    _ ≤ s.length := (List.dropWhile_sublist _).length_le

/-- A line accepted by the Segmenter's header predicate has a stripped
length of at least 3. -/
theorem looks_like_header_three_le (l : Str) (h : looks_like_header l = true) :
    3 ≤ (stripL l).length := by
  simp only [looks_like_header] at h
  split at h
  · exact absurd h (by simp)
  · rename_i hc
    simp only [Bool.or_eq_true, decide_eq_true_eq, not_or] at hc
    omega

/-- The boosting stage always returns a score of at most 2. -/
theorem apply_persona_boosting_le_two (sec : Section) (b : ℚ)
    (pc : PersonaProfile) (j : Str) : apply_persona_boosting sec b pc j ≤ 2 := by
  unfold apply_persona_boosting
  exact min_le_right _ _

/-- Deduplication only keeps elements of its input. -/
theorem mem_dedupGo (seen : List Str) (l : List Section) (s : Section)
    (h : s ∈ dedupGo seen l) : s ∈ l := by
  induction l generalizing seen with
  | nil => simp [dedupGo] at h
  | cons a rest ih =>
    simp only [dedupGo] at h
    split at h
    · exact List.mem_cons_of_mem _ (ih _ h)
    · rcases List.mem_cons.mp h with h1 | h2
      · exact h1 ▸ List.mem_cons_self _ _
      · exact List.mem_cons_of_mem _ (ih _ h2)

/-- The deduplication worker is idempotent for any seen set. -/
theorem dedupGo_idem (seen : List Str) (l : List Section) :
    dedupGo seen (dedupGo seen l) = dedupGo seen l := by
  induction l generalizing seen with
  | nil => simp [dedupGo]
  | cons a rest ih =>
    by_cases hc : (seen.contains (normContent a.content)) = true
    · rw [show dedupGo seen (a :: rest) = dedupGo seen rest from by
        simp only [dedupGo]
        rw [if_pos hc]]
      exact ih seen
    · have h1 : dedupGo seen (a :: rest)
          = a :: dedupGo (normContent a.content :: seen) rest := by
        simp only [dedupGo]
        rw [if_neg hc]
      have h2 : dedupGo seen
            (a :: dedupGo (normContent a.content :: seen) rest)
          = a :: dedupGo (normContent a.content :: seen)
              (dedupGo (normContent a.content :: seen) rest) := by
        simp only [dedupGo]
        rw [if_neg hc]
      rw [h1, h2, ih]

/-- Sections produced by an implicit-group flush pass the validity check. -/
theorem mem_implicitFlush_valid (fn : Str) (n : Nat) (t : Option Str)
    (acc : List Str) (s : Section) (h : s ∈ implicitFlush fn n t acc) :
    is_valid_section s.content = true := by
  cases t with
  | none => exact absurd h (List.not_mem_nil s)
  | some t0 =>
    simp only [implicitFlush] at h
    split at h
    · rename_i hc
      simp only [List.mem_singleton] at h
      subst h
      simp only [Bool.and_eq_true] at hc
      exact hc.2
    · exact absurd h (List.not_mem_nil s)

/-- Sections produced by the implicit-section loop pass the validity check. -/
theorem mem_implicitLoop_valid (fn : Str) (n : Nat) (ps : List Str)
    (t : Option Str) (acc : List Str) (s : Section)
    (h : s ∈ implicitLoop fn n ps t acc) : is_valid_section s.content = true := by
  induction ps generalizing t acc with
  | nil => exact mem_implicitFlush_valid fn n t acc s h
  | cons p rest ih =>
    simp only [implicitLoop] at h
    split at h
    · rcases List.mem_append.mp h with h1 | h2
      · exact mem_implicitFlush_valid fn n t acc s h1
      · exact ih _ _ h2
    · exact ih _ _ h

/-- Unpacking the validity check into the invariant components. -/
theorem is_valid_section_spec (c : Str) (h : is_valid_section c = true) :
    50 ≤ c.length ∧ c.length ≤ 2000 ∧
    3 * (pySplit c).length ≤ 10 * (pySplit c).dedup.length := by
  simp only [is_valid_section] at h
  split at h
  · exact absurd h (by simp)
  · rename_i h1
    split at h
    · exact absurd h (by simp)
    · rename_i h2
      split at h
      · exact absurd h (by simp)
      · rename_i h3
        simp only [Bool.or_eq_true, decide_eq_true_eq, not_or] at h1
        simp only [decide_eq_true_eq, not_lt] at h2 h3
        have h4 := length_stripL_le c
        have h5 := h1.2
        refine ⟨by omega, by omega, by omega⟩

/-- Sections kept by the per-page explicit filter pass the validity check. -/
theorem mem_explicitFilter_valid (fn : Str) (page : Page) (s : Section)
    (h : s ∈ page.sections.filterMap fun ps =>
      let c := extract_section_content page.text ps.title page.page_number
      if is_valid_section c then
        some { document := fn, title := ps.title, content := c,
               page_number := page.page_number, type := chars "explicit" }
      else none) : is_valid_section s.content = true := by
  rw [List.mem_filterMap] at h
  obtain ⟨ps, _, hps⟩ := h
  dsimp only at hps
  split at hps
  · rename_i hv
    obtain rfl := Option.some.inj hps
    exact hv
  · exact absurd hps (by simp)

/-- Sections emitted by the Segmenter pass the validity check. -/
theorem mem_extract_sections_valid (doc : DocContent) (fn : Str) (s : Section)
    (h : s ∈ extract_sections doc fn) : is_valid_section s.content = true := by
  simp only [extract_sections, rank_sections_by_quality] at h
  have h1 := (List.perm_insertionSort _ _).mem_iff.mp h
  have h2 := mem_dedupGo _ _ _ h1
  rw [List.mem_flatten] at h2
  obtain ⟨l, hl, hsl⟩ := h2
  rw [List.mem_map] at hl
  obtain ⟨page, _, rfl⟩ := hl
  rcases List.mem_append.mp hsl with h3 | h4
  · exact mem_explicitFilter_valid fn page s h3
  · exact mem_implicitLoop_valid _ _ _ _ _ _ h4

/-! Claim theorems. -/

/-- C6: for every persona type and every set of job actions, the four
content-type weights produced by calculate-context-weights sum to exactly
1 (floating-point tolerance is not needed in the exact rational model). -/
theorem context_weights_sum_one (persona_type : Str) (job_actions : List Str) :
    (calculate_context_weights persona_type job_actions).instructional +
    (calculate_context_weights persona_type job_actions).descriptive +
    (calculate_context_weights persona_type job_actions).analytical +
    (calculate_context_weights persona_type job_actions).reference = 1 := by
  simp only [calculate_context_weights]
  split_ifs <;> norm_num

/-- C9: the Segmenter's deduplication step is idempotent: applying it to
its own output yields the same list as applying it once. -/
theorem deduplicate_idempotent (sections : List Section) :
    deduplicate_sections (deduplicate_sections sections)
      = deduplicate_sections sections :=
  dedupGo_idem [] sections

/-- C10: rank-sections on an empty section list returns the empty list for
every pair of similarity collaborators, every persona profile and every
job task, without consulting any similarity signal. -/
theorem rank_sections_empty (semanticSim tfidfSim : List Section → Str → List ℚ)
    (pc : PersonaProfile) (job_task : Str) :
    rank_sections semanticSim tfidfSim [] pc job_task = [] := rfl

/-- C1: every relevance score assigned by rank-sections after persona and
job boosting is at most 2, for any sections, profile, job task and
similarity collaborators. -/
theorem rank_sections_score_le_two
    (semanticSim tfidfSim : List Section → Str → List ℚ)
    (sections : List Section) (pc : PersonaProfile) (job_task : Str)
    (s : Section) (h : s ∈ rank_sections semanticSim tfidfSim sections pc job_task) :
    s.relevance_score ≤ 2 := by
  unfold rank_sections at h
  split at h
  · exact absurd h (List.not_mem_nil s)
  · have h1 := (List.perm_insertionSort _ _).mem_iff.mp h
    rw [List.mem_map] at h1
    obtain ⟨is, _, rfl⟩ := h1
    exact apply_persona_boosting_le_two _ _ _ _

/-- C2: every section emitted by extract-sections has content length in
the range 50 to 2000 and a distinct-word count of at least 3/10 of its
word count; candidates violating this are discarded. -/
theorem extract_sections_content_invariant (doc : DocContent) (fn : Str)
    (s : Section) (h : s ∈ extract_sections doc fn) :
    50 ≤ s.content.length ∧ s.content.length ≤ 2000 ∧
    3 * (pySplit s.content).length ≤ 10 * (pySplit s.content).dedup.length :=
  is_valid_section_spec _ (mem_extract_sections_valid doc fn s h)

/-- The implicit-section loop with no established title and no header-like
first line produces nothing, whatever the accumulator holds. -/
theorem implicitLoop_none_no_header (fn : Str) (n : Nat) (ps : List Str)
    (acc : List Str)
    (hall : (ps.all fun p => !looks_like_header (firstLineOf p)) = true) :
    implicitLoop fn n ps none acc = [] := by
  induction ps generalizing acc with
  | nil => rfl
  | cons p rest ih =>
    simp only [List.all_cons, Bool.and_eq_true, Bool.not_eq_true'] at hall
    simp only [implicitLoop, hall.1, Bool.false_and, Bool.false_eq_true,
      if_false]
    exact ih _ (by simp only [List.all_eq_true] at hall ⊢; exact hall.2)

/-- Once a title is established, a trailing group with no further header
trigger is flushed at end of page when its joined content is valid. -/
theorem implicitLoop_final_flush (fn : Str) (n : Nat) (ps : List Str)
    (t : Str) (acc : List Str)
    (hall : (ps.all fun p => !looks_like_header (firstLineOf p)) = true)
    (hacc : acc ≠ [])
    (hval : is_valid_section (joinSp (acc ++ ps)) = true) :
    implicitLoop fn n ps (some t) acc
      = [{ document := fn, title := t, content := joinSp (acc ++ ps),
           page_number := n, type := chars "implicit" }] := by
  induction ps generalizing acc with
  | nil =>
    rw [List.append_nil] at hval ⊢
    simp only [implicitLoop, implicitFlush]
    rw [if_pos]
    simp only [Bool.and_eq_true, Bool.not_eq_true']
    exact ⟨by simpa [List.isEmpty_iff] using hacc, hval⟩
  | cons p rest ih =>
    simp only [List.all_cons, Bool.and_eq_true, Bool.not_eq_true'] at hall
    simp only [implicitLoop, hall.1, Bool.false_and, Bool.false_eq_true,
      if_false]
    have h1 : (acc ++ [p]) ++ rest = acc ++ (p :: rest) := by
      rw [List.append_assoc, List.singleton_append]
    rw [show joinSp (acc ++ (p :: rest)) = joinSp ((acc ++ [p]) ++ rest) from by
      rw [h1]] at hval ⊢
    exact ih (acc ++ [p])
      (by simp only [List.all_eq_true] at hall ⊢; exact hall.2)
      (by simp) hval

set_option maxRecDepth 4000 in
/-- C3 counterexample: a page whose first accumulated paragraph group is
valid and precedes a header-like line; the group is silently discarded (the
output holds only the section flushed for the later header), refuting the
claim that the first accumulated group is flushed. -/
theorem implicit_first_group_dropped :
    extract_implicit_sections
        (chars "the quick brown fox jumps over lazy dogs near riverbank today\n\nOverview\nclosing section text contains many distinct useful words about cooking techniques")
        1 (chars "doc.pdf")
      = [{ document := chars "doc.pdf", title := chars "Overview",
           content := chars "closing section text contains many distinct useful words about cooking techniques",
           page_number := 1, type := chars "implicit" }] ∧
    is_valid_section
        (chars "the quick brown fox jumps over lazy dogs near riverbank today")
      = true ∧
    (chars "the quick brown fox jumps over lazy dogs near riverbank today") ∉
      (extract_implicit_sections
        (chars "the quick brown fox jumps over lazy dogs near riverbank today\n\nOverview\nclosing section text contains many distinct useful words about cooking techniques")
        1 (chars "doc.pdf")).map Section.content := by
  refine ⟨by decide, by decide, by decide⟩

/-- C3 amended: in implicit-section extraction only the last accumulated
group is flushed at end of page, and only once a header-like line has
established a title; with no header-like paragraph line at all (so the
whole page is one untitled group) nothing is emitted. -/
theorem implicit_flush_amended :
    (∀ page_text n fn,
      ((paragraphsOf page_text).all fun p => !looks_like_header (firstLineOf p)) = true →
      extract_implicit_sections page_text n fn = []) ∧
    (∀ ps n fn t acc,
      (ps.all fun p => !looks_like_header (firstLineOf p)) = true →
      acc ≠ [] → is_valid_section (joinSp (acc ++ ps)) = true →
      implicitLoop fn n ps (some t) acc
        = [{ document := fn, title := t, content := joinSp (acc ++ ps),
             page_number := n, type := chars "implicit" }]) := by
  constructor
  · intro page_text n fn hall
    exact implicitLoop_none_no_header fn n _ [] hall
  · intro ps n fn t acc hall hacc hval
    exact implicitLoop_final_flush fn n ps t acc hall hacc hval

/-- Witness for the amended C3 theorem at concrete inputs. -/
theorem implicit_flush_amended_witness :
    extract_implicit_sections (chars "just some plain lowercase words here") 1
        (chars "d.pdf") = [] ∧
    implicitLoop (chars "d.pdf") 1 [] (some (chars "Overview"))
        [chars "closing section text contains many distinct useful words about cooking techniques"]
      = [{ document := chars "d.pdf", title := chars "Overview",
           content := joinSp
             ([chars "closing section text contains many distinct useful words about cooking techniques"] ++ []),
           page_number := 1, type := chars "implicit" }] :=
  ⟨implicit_flush_amended.1 _ 1 _ (by decide),
   implicit_flush_amended.2 [] 1 _ _ _ (by decide) (by decide) (by decide)⟩

/-- C4 counterexample: with exactly 3 accumulated content lines, a
header-like line ("NEXT SECTION") does not terminate the section; it is
appended to the content, refuting the claim that accumulation stops once
at least 3 content lines are accumulated. -/
theorem section_content_boundary_cex :
    extract_section_content
        (chars "Intro\nline one a\nline two b\nline three c\nNEXT SECTION\nmore stuff here")
        (chars "Intro") 1
      = chars "line one a line two b line three c NEXT SECTION more stuff here" ∧
    looks_like_header (chars "NEXT SECTION") = true := by
  decide

/-- C4 amended: content accumulation stops at a header-like line only once
more than 3 content lines (at least 4) are accumulated; a header-like line
arriving when exactly 3 lines are accumulated is appended instead. -/
theorem section_content_stop_amended :
    (∀ l rest acc, acc.length = 3 → looks_like_header (stripL l) = true →
      contentLoop (l :: rest) acc = contentLoop rest (acc ++ [stripL l])) ∧
    (∀ l rest acc, 3 < acc.length → looks_like_header (stripL l) = true →
      contentLoop (l :: rest) acc = acc) := by
  constructor
  · intro l rest acc h3 hh
    have h1 := looks_like_header_three_le (stripL l) hh
    have h2 := length_stripL_le (stripL l)
    have hne : (stripL l).isEmpty = false := by
      cases hsl : stripL l with
      | nil =>
        rw [hsl, show stripL ([] : Str) = [] from rfl] at h1
        exact absurd h1 (by norm_num)
      | cons a as => rfl
    simp only [contentLoop, hh, h3, hne]
    norm_num
  · intro l rest acc hlt hh
    simp only [contentLoop, hh, hlt]
    norm_num

/-- Witness for the amended C4 theorem at concrete inputs. -/
theorem section_content_stop_amended_witness :
    contentLoop [chars "NEXT SECTION"] [chars "aa", chars "bb", chars "cc"]
      = contentLoop [] ([chars "aa", chars "bb", chars "cc"] ++ [stripL (chars "NEXT SECTION")]) ∧
    contentLoop [chars "NEXT SECTION"] [chars "aa", chars "bb", chars "cc", chars "dd"]
      = [chars "aa", chars "bb", chars "cc", chars "dd"] :=
  ⟨section_content_stop_amended.1 _ _ _ (by decide) (by decide),
   section_content_stop_amended.2 _ _ _ (by decide) (by decide)⟩

/-- C5 counterexample: the line "SECTION 2" satisfies all conditions of the
claimed acceptance clause (length in 3..100, fully capitalized, at most 8
words, no trailing period, no colon) yet the Segmenter's looks-like-header
predicate rejects it, since it matches none of the pattern family. -/
theorem looks_like_header_allcaps_cex :
    (3 ≤ (chars "SECTION 2").length ∧ (chars "SECTION 2").length ≤ 100 ∧
     pyIsUpper (chars "SECTION 2") = true ∧
     (pySplit (chars "SECTION 2")).length ≤ 8 ∧
     endsWithDot (chars "SECTION 2") = false ∧
     (chars "SECTION 2").contains ':' = false) ∧
    looks_like_header (chars "SECTION 2") = false := by
  decide

/-- C5 amended: the full-caps and title-case acceptance clauses belong to
the document processor's is-section-header predicate (used to detect
explicit header candidates), which accepts every such line; the
Segmenter's looks-like-header accepts only its pattern family. -/
theorem header_acceptance_amended :
    (∀ t, 3 ≤ (stripL t).length → (stripL t).length ≤ 100 →
      pyIsUpper (stripL t) = true → (pySplit (stripL t)).length ≤ 8 →
      endsWithDot (stripL t) = false → (stripL t).contains ':' = false →
      is_section_header t = true) ∧
    (∀ t, 3 ≤ (stripL t).length → (stripL t).length ≤ 100 →
      pyIsTitle (stripL t) = true → (pySplit (stripL t)).length ≤ 10 →
      endsWithDot (stripL t) = false → countChar ':' (stripL t) ≤ 1 →
      is_section_header t = true) := by
  constructor
  · intro t h1 h2 h3 h4 h5 h6
    simp only [is_section_header]
    rw [if_neg (by
      simp only [Bool.or_eq_true, decide_eq_true_eq, not_or]
      constructor <;> omega)]
    split
    · rfl
    · rw [if_pos (by rw [h3, h5, h6, decide_eq_true h4]; rfl)]
  · intro t h1 h2 h3 h4 h5 h6
    simp only [is_section_header]
    rw [if_neg (by
      simp only [Bool.or_eq_true, decide_eq_true_eq, not_or]
      constructor <;> omega)]
    split
    · rfl
    · split
      · rfl
      · rw [if_pos (by rw [h3, h5, decide_eq_true h4, decide_eq_true h6]; rfl)]

/-- Witness for the amended C5 theorem at concrete inputs: a full-caps line
and a title-case line with one colon. -/
theorem header_acceptance_amended_witness :
    is_section_header (chars "SECTION 2") = true ∧
    is_section_header (chars "Hello: World") = true :=
  ⟨header_acceptance_amended.1 _ (by decide) (by decide) (by decide)
      (by decide) (by decide) (by decide),
   header_acceptance_amended.2 _ (by decide) (by decide) (by decide)
      (by decide) (by decide) (by decide)⟩

/-- C7: for every parent section, persona profile and job task,
extract-subsections returns at most 3 subsections, each with trimmed
content of at least 100 characters, ordered descending by relevance
score. -/
theorem extract_subsections_top3 (s : Section) (pc : PersonaProfile)
    (job : Str) :
    (extract_subsections s pc job).length ≤ 3 ∧
    (∀ x, x ∈ extract_subsections s pc job → 100 ≤ x.content.length) ∧
    List.Pairwise (fun a b : Subsection => b.relevance_score ≤ a.relevance_score)
      (extract_subsections s pc job) := by
  refine ⟨?_, ?_, ?_⟩
  · unfold extract_subsections
    exact List.length_take_le 3 _
  · intro x hx
    unfold extract_subsections at hx
    have h1 := (List.take_sublist 3 _).subset hx
    have h2 := (List.perm_insertionSort _ _).mem_iff.mp h1
    rw [List.mem_filterMap] at h2
    obtain ⟨is, _, hps⟩ := h2
    split at hps
    · rename_i hlen
      obtain rfl := Option.some.inj hps
      exact hlen
    · exact absurd hps (by simp)
  · unfold extract_subsections
    have hs := List.sorted_insertionSort
      (fun a b : Subsection => b.relevance_score ≤ a.relevance_score)
      ((split_into_subsections s.content).enum.filterMap fun is =>
        if 100 ≤ (stripL is.2).length then
          some { document := s.document, content := stripL is.2,
                 page_number := s.page_number,
                 relevance_score := score_subsection_relevance is.2 pc job,
                 subsection_index := is.1 }
        else none)
    exact List.Pairwise.sublist (List.take_sublist 3 _) hs

/-- C8: for the food-contractor scenario the profile resolves to the
contractor persona type, vegetarian dietary requirement and group size 50,
and any section content containing both vegetarian and buffet receives the
two separate 1.3 multiplicative job-term boosts (the only other possible
job boost for this job text is the corporate 1.2 boost). -/
theorem food_contractor_scenario :
    (create_persona_profile foodPersona buffetJob).persona_type
      = chars "contractor" ∧
    chars "vegetarian" ∈
      (create_persona_profile foodPersona buffetJob).requirements.dietary ∧
    (create_persona_profile foodPersona buffetJob).requirements.size
      = some 50 ∧
    (∀ content x, isSubstr (chars "vegetarian") content = true →
      isSubstr (chars "buffet") content = true →
      jobBoost (toLowerS buffetJob) content x =
        if ([chars "professional", chars "business", chars "corporate"].any
            fun w => isSubstr w content) = true
        then x * (13/10) * (13/10) * (6/5)
        else x * (13/10) * (13/10)) := by
  refine ⟨by decide, by decide, by decide, ?_⟩
  intro content x h1 h2
  have hbj : isSubstr (chars "buffet") (toLowerS buffetJob) = true := by decide
  have hvj : isSubstr (chars "vegetarian") (toLowerS buffetJob) = true := by
    decide
  have hcj : isSubstr (chars "college") (toLowerS buffetJob) = false := by
    decide
  have hoj : isSubstr (chars "corporate") (toLowerS buffetJob) = true := by
    decide
  simp only [jobBoost, hbj, hvj, hcj, hoj, h1, h2, Bool.true_and,
    Bool.false_and, Bool.and_true, if_true, Bool.false_eq_true, if_false]

/-! Witnesses for the claim theorems with hypotheses. -/

/-- Witness for C1 at a concrete one-section input with constant
similarity collaborators. -/
theorem rank_sections_score_le_two_witness :
    ({ document := chars "doc.pdf", title := chars "t", content := chars "ab",
       page_number := 1, type := chars "explicit",
       relevance_score := 7/10 } : Section) ∈
      rank_sections (fun _ _ => [1]) (fun _ _ => [1])
        [{ document := chars "doc.pdf", title := chars "t",
           content := chars "ab", page_number := 1,
           type := chars "explicit" }] emptyProfile [] ∧
    ({ document := chars "doc.pdf", title := chars "t", content := chars "ab",
       page_number := 1, type := chars "explicit",
       relevance_score := 7/10 } : Section).relevance_score ≤ 2 :=
  ⟨by decide,
   rank_sections_score_le_two (fun _ _ => [1]) (fun _ _ => [1])
     [⟨chars "doc.pdf", chars "t", chars "ab", 1, chars "explicit", 0⟩]
     emptyProfile []
     ⟨chars "doc.pdf", chars "t", chars "ab", 1, chars "explicit", 7/10⟩
     (by decide)⟩

/-- Witness for C2 at a concrete one-page document with one explicit
section. -/
theorem extract_sections_content_invariant_witness :
    ({ document := chars "doc.pdf", title := chars "Intro",
       content := chars "alpha beta gamma delta epsilon zeta eta theta iota kappa lambda mu",
       page_number := 1, type := chars "explicit" } : Section) ∈
      extract_sections
        ⟨[⟨1, chars "Intro\nalpha beta gamma delta epsilon zeta eta theta iota kappa lambda mu",
           [⟨chars "Intro"⟩]⟩]⟩
        (chars "doc.pdf") ∧
    (50 ≤ (chars "alpha beta gamma delta epsilon zeta eta theta iota kappa lambda mu").length ∧
     (chars "alpha beta gamma delta epsilon zeta eta theta iota kappa lambda mu").length ≤ 2000 ∧
     3 * (pySplit (chars "alpha beta gamma delta epsilon zeta eta theta iota kappa lambda mu")).length ≤
       10 * (pySplit (chars "alpha beta gamma delta epsilon zeta eta theta iota kappa lambda mu")).dedup.length) :=
  ⟨by decide,
   extract_sections_content_invariant
     ⟨[⟨1, chars "Intro\nalpha beta gamma delta epsilon zeta eta theta iota kappa lambda mu",
        [⟨chars "Intro"⟩]⟩]⟩
     (chars "doc.pdf")
     ⟨chars "doc.pdf", chars "Intro",
      chars "alpha beta gamma delta epsilon zeta eta theta iota kappa lambda mu",
      1, chars "explicit", 0⟩
     (by decide)⟩

/-- Witness for C7 at a concrete section whose body yields exactly one
subsection candidate. -/
theorem extract_subsections_top3_witness :
    (extract_subsections
      ⟨chars "d.pdf", chars "T",
       chars "alpha bravo charlie delta echo foxtrot golf hotel india juliett kilo lima mike november oscar papa quebec romeo",
       2, chars "explicit", 0⟩ emptyProfile []).length ≤ 3 ∧
    ((⟨chars "d.pdf",
       chars "alpha bravo charlie delta echo foxtrot golf hotel india juliett kilo lima mike november oscar papa quebec romeo",
       2, 111/5000, 0⟩ : Subsection) ∈
      extract_subsections
        ⟨chars "d.pdf", chars "T",
         chars "alpha bravo charlie delta echo foxtrot golf hotel india juliett kilo lima mike november oscar papa quebec romeo",
         2, chars "explicit", 0⟩ emptyProfile [] ∧
     100 ≤ (⟨chars "d.pdf",
       chars "alpha bravo charlie delta echo foxtrot golf hotel india juliett kilo lima mike november oscar papa quebec romeo",
       2, 111/5000, 0⟩ : Subsection).content.length) ∧
    List.Pairwise (fun a b : Subsection => b.relevance_score ≤ a.relevance_score)
      (extract_subsections
        ⟨chars "d.pdf", chars "T",
         chars "alpha bravo charlie delta echo foxtrot golf hotel india juliett kilo lima mike november oscar papa quebec romeo",
         2, chars "explicit", 0⟩ emptyProfile []) :=
  ⟨(extract_subsections_top3
      ⟨chars "d.pdf", chars "T",
       chars "alpha bravo charlie delta echo foxtrot golf hotel india juliett kilo lima mike november oscar papa quebec romeo",
       2, chars "explicit", 0⟩ emptyProfile []).1,
   ⟨by decide,
    (extract_subsections_top3
      ⟨chars "d.pdf", chars "T",
       chars "alpha bravo charlie delta echo foxtrot golf hotel india juliett kilo lima mike november oscar papa quebec romeo",
       2, chars "explicit", 0⟩ emptyProfile []).2.1
      ⟨chars "d.pdf",
       chars "alpha bravo charlie delta echo foxtrot golf hotel india juliett kilo lima mike november oscar papa quebec romeo",
       2, 111/5000, 0⟩ (by decide)⟩,
   (extract_subsections_top3
      ⟨chars "d.pdf", chars "T",
       chars "alpha bravo charlie delta echo foxtrot golf hotel india juliett kilo lima mike november oscar papa quebec romeo",
       2, chars "explicit", 0⟩ emptyProfile []).2.2⟩

/-- Witness for C8 at a concrete content containing vegetarian and buffet
but none of the corporate words. -/
theorem food_contractor_scenario_witness :
    jobBoost (toLowerS buffetJob) (chars "vegetarian buffet dishes") 1 =
      (if ([chars "professional", chars "business", chars "corporate"].any
          fun w => isSubstr w (chars "vegetarian buffet dishes")) = true
       then 1 * (13/10) * (13/10) * (6/5)
       else 1 * (13/10) * (13/10)) :=
  food_contractor_scenario.2.2.2 (chars "vegetarian buffet dishes") 1
    (by decide) (by decide)

end PDFA
